import Mathlib

/-!
Verification development for the news-article extraction pipeline
(`parse_raw_html/parse_html.py`).  The Python script parses archived HTML
pages of three publications (Egypt Independent `egind`, al-Ahram `ahram`,
Daily News Egypt `dne`) into `Article` records and persists them into a
normalized SQLite store.

Shallow embedding conventions:
* BeautifulSoup selector calls are modelled by a `RawDoc` record holding,
  for each CSS selector the script reads, the list of selector results
  (each result given as the list of raw HTML strings of its children, or
  as its string value).  Indexing `results[0]` on an empty list raises
  `IndexError`, exactly as in Python.
* The pure string algorithms (splitting, byline regexes, punctuation
  removal, `strptime` date parsing, tag stripping) are translated
  faithfully at string level.  Tag stripping is modelled with a small
  HTML tokenizer (text runs and `<...>` tag tokens); this matches
  BeautifulSoup's behaviour on the well-formed fragments used here.
* Python exceptions are modelled by `Except PyErr`.
-/

/-- Python exception kinds relevant to the script's control flow. -/
inductive PyErr where
  | indexError
  | valueError
  | attributeError
  | typeError
  | exception
deriving DecidableEq, Repr

/-- Result of `datetime.strptime`: a calendar date plus the time of day
(the egind format carries `%H:%M`; the other formats leave it 0:00). -/
structure PDate where
  year : Nat
  month : Nat
  day : Nat
  hour : Nat
  minute : Nat
deriving DecidableEq, Repr

/-- Build a string from a character list (inverse of `String.data`). -/
def ofChars (l : List Char) : String := String.mk l

/-- Python `str.strip()`: drop leading and trailing whitespace. -/
def pyTrim (s : String) : String :=
  ofChars (((s.data.dropWhile Char.isWhitespace).reverse.dropWhile Char.isWhitespace).reverse)

/-- Python `sep.join(l)`. -/
def joinWith (sep : String) : List String → String
  | [] => ""
  | [x] => x
  | x :: y :: rest => x ++ sep ++ joinWith sep (y :: rest)

/-- Numeric value of a digit string (callers check `allDigits` first). -/
def strToNat (s : String) : Nat := s.data.foldl (fun n c => n * 10 + (c.toNat - 48)) 0

/-- Python `lst[0]` : first element or `IndexError`. -/
def sel0 {α : Type} : List α → Except PyErr α
  | [] => Except.error PyErr.indexError
  | x :: _ => Except.ok x

/-- Python `lst[1]` : second element or `IndexError`. -/
def sel1 {α : Type} : List α → Except PyErr α
  | _ :: y :: _ => Except.ok y
  | _ => Except.error PyErr.indexError

/-- Python `lst[-1]` / `lst.pop()` : last element or `IndexError`. -/
def selLast {α : Type} (l : List α) : Except PyErr α :=
  match l.getLast? with
  | some x => Except.ok x
  | none => Except.error PyErr.indexError

/-- Lift an `Option` to `Except`, raising the given error on `none`. -/
def optE {α : Type} (e : PyErr) : Option α → Except PyErr α
  | none => Except.error e
  | some a => Except.ok a

/-- Python `' '.join(l)`. -/
def joinSp (l : List String) : String := joinWith (" ") l

/-- Python `'\n'.join(l)`. -/
def joinNl (l : List String) : String := joinWith ("\n") l

/-- Python `str.lower()` (ASCII; the inputs here are ASCII plus a few
punctuation marks that have no case). -/
def lowerStr (s : String) : String := ofChars (s.data.map Char.toLower)

/-- Auxiliary scanner for substring containment. -/
def containsAux (p : List Char) : List Char → Bool
  | [] => p.isPrefixOf []
  | c :: cs => p.isPrefixOf (c :: cs) || containsAux p cs

/-- Python `sub in s` (substring containment). -/
def containsSub (s sub : String) : Bool := containsAux sub.data s.data

/-- Python `s.startswith(p)`. -/
def startsWithStr (s p : String) : Bool := p.data.isPrefixOf s.data

/-- Fuel-driven scanner for `str.split(sep)` with a non-empty separator:
cut at each leftmost non-overlapping occurrence of `sep`. -/
def splitOnAux (sep : List Char) : Nat → List Char → List Char → List String
  | 0, cs, acc => [ofChars (acc.reverse ++ cs)]
  | _ + 1, [], acc => [ofChars acc.reverse]
  | fuel + 1, c :: cs, acc =>
    if sep.isPrefixOf (c :: cs) then
      ofChars acc.reverse :: splitOnAux sep fuel ((c :: cs).drop sep.length) []
    else
      splitOnAux sep fuel cs (c :: acc)

/-- Python `s.split(sep)` for a non-empty literal separator. -/
def pySplitOn (s sep : String) : List String := splitOnAux sep.data (s.length + 1) s.data []

/-- Python `s.replace(pat, rep)` (equal to `rep.join(s.split(pat))`). -/
def replaceAllStr (s pat rep : String) : String := joinWith rep (pySplitOn s pat)

/-- Whitespace tokenizer: groups of consecutive non-whitespace characters. -/
def swAux : List Char → List Char → List String
  | [], acc => if acc.isEmpty then [] else [ofChars acc.reverse]
  | c :: cs, acc =>
    if c.isWhitespace then
      (if acc.isEmpty then swAux cs [] else ofChars acc.reverse :: swAux cs [])
    else swAux cs (c :: acc)

/-- Python `s.split()` with no argument: split on whitespace runs,
dropping empty tokens. -/
def pySplitWs (s : String) : List String := swAux s.data []

/-- Python `re.sub(r'[^\d]+', '', s)` : keep only digit characters. -/
def digitsOf (s : String) : String := ofChars (s.data.filter Char.isDigit)

/-- Python `head` of a split result (a `str.split` result is never empty). -/
def hd0 (l : List String) : String :=
  match l with
  | s :: _ => s
  | [] => ""

/-- A token of the minimal HTML model: a text run, or one `<...>` tag. -/
inductive HTok where
  | text : List Char → HTok
  | tag : List Char → HTok

/-- Single-pass HTML tokenizer: characters outside `<...>` form text runs,
everything from `<` to the next `>` (inclusive) forms one tag token.
An unterminated tag at the end of input is emitted as a tag token. -/
def tokAux : List Char → Bool → List Char → List HTok
  | [], inTag, acc =>
    if acc.isEmpty then [] else [if inTag then HTok.tag acc.reverse else HTok.text acc.reverse]
  | c :: cs, false, acc =>
    if c = '<' then
      (if acc.isEmpty then tokAux cs true ['<'] else HTok.text acc.reverse :: tokAux cs true ['<'])
    else tokAux cs false (c :: acc)
  | c :: cs, true, acc =>
    if c = '>' then HTok.tag (acc.reverse ++ ['>']) :: tokAux cs false []
    else tokAux cs true (c :: acc)

/-- Tokenize a string into the minimal HTML token model. -/
def tokenizeHtml (s : String) : List HTok := tokAux s.data false []

/-- Text content of a token, if it is a text run. -/
def tokText : HTok → Option (List Char)
  | HTok.text cs => some cs
  | HTok.tag _ => none

/-- Raw characters of a token. -/
def tokRaw : HTok → List Char
  | HTok.text cs => cs
  | HTok.tag cs => cs

/-- Lowercased element name of a tag token (skipping `<` and an optional `/`). -/
def tagNameOf (cs : List Char) : String :=
  let rest := cs.drop 1
  let rest := match rest with
    | '/' :: r => r
    | r => r
  ofChars ((rest.takeWhile Char.isAlphanum).map Char.toLower)

/-- Whether a tag token is a closing tag (`</...>`). -/
def isCloseTag (cs : List Char) : Bool :=
  match cs with
  | _ :: '/' :: _ => true
  | _ => false

/-- Model of `Article._strip_all_tags`: `find_all(text=True)`, strip each
text node, drop empties, join with single spaces. -/
def stripAllTags (s : String) : String :=
  joinWith (" ")
    ((((tokenizeHtml s).filterMap tokText).map (fun cs => pyTrim (ofChars cs))).filter
      (fun x => x != ("")))

/-- Model of `Article._strip_again`: unwrap (`replaceWithChildren`) every
`script`, `br` and `div` tag, keeping all other tokens verbatim. -/
def stripAgain (s : String) : String :=
  ofChars (((tokenizeHtml s).filter (fun t =>
    match t with
    | HTok.tag cs =>
      !(tagNameOf cs == ("script") || tagNameOf cs == ("br") || tagNameOf cs == ("div"))
    | HTok.text _ => true)).foldr (fun t acc => tokRaw t ++ acc) [])

/-- Subtree-deletion scanner for `_strip_extra_tags`: drop `script`,
`style`, `br`, `div` tags together with everything inside them (the
stack records the currently-open deleted elements). -/
def sxAux : List HTok → List String → List HTok
  | [], _ => []
  | HTok.text cs :: ts, [] => HTok.text cs :: sxAux ts []
  | HTok.text _ :: ts, top :: rest => sxAux ts (top :: rest)
  | HTok.tag cs :: ts, [] =>
    if tagNameOf cs = ("script") ∨ tagNameOf cs = ("style") ∨ tagNameOf cs = ("br") ∨
        tagNameOf cs = ("div") then
      (if isCloseTag cs then sxAux ts []
       else if tagNameOf cs = ("br") then sxAux ts []
       else sxAux ts [tagNameOf cs])
    else HTok.tag cs :: sxAux ts []
  | HTok.tag cs :: ts, top :: rest =>
    if isCloseTag cs then
      (if tagNameOf cs = top then sxAux ts rest else sxAux ts (top :: rest))
    else if tagNameOf cs = ("script") ∨ tagNameOf cs = ("style") ∨ tagNameOf cs = ("div") then
      sxAux ts (tagNameOf cs :: (top :: rest))
    else sxAux ts (top :: rest)

/-- Model of `Article._strip_extra_tags`: delete `script`, `style`, `br`,
`div` elements and their subtrees entirely. -/
def stripExtraTags (s : String) : String :=
  ofChars ((sxAux (tokenizeHtml s) []).foldr (fun t acc => tokRaw t ++ acc) [])

/-- The punctuation set of the script: `string.punctuation` minus the
hyphen, plus en-dash, em-dash and the four curly quote characters. -/
def puncChars : List Char :=
  ['!', '\x22', '#', '$', '%', '&', '\x27', '(', ')', '*', '+', ',', '.', '/',
   ':', ';', '<', '=', '>', '?', '@', '[', '\x5c', ']', '^', '_', '\x60',
   '\x7b', '|', '\x7d', '~', '–', '—', '”', '’', '“', '‘']

/-- Membership in the punctuation set. -/
def isPunc (c : Char) : Bool := puncChars.contains c

/-- Replace a punctuation character by a space, keep everything else. -/
def puncRepl (c : Char) : Char := if isPunc c then ' ' else c

/-- The shared derived-field computation of all three extractors:
lowercase the tag-free content, then replace every punctuation character
with a space (`regex.sub(' ', content_no_tags.lower())`). -/
def puncSub (s : String) : String := ofChars ((s.data.map Char.toLower).map puncRepl)

/-- Full weekday names, lowercased (`strptime` `%A`, matched case-insensitively). -/
def fullWeekdays : List String :=
  [("monday"), ("tuesday"), ("wednesday"), ("thursday"), ("friday"), ("saturday"), ("sunday")]

/-- Abbreviated weekday names, lowercased (`strptime` `%a`). -/
def abbrWeekdays : List String :=
  [("mon"), ("tue"), ("wed"), ("thu"), ("fri"), ("sat"), ("sun")]

/-- Abbreviated month names, lowercased (`strptime` `%b`). -/
def abbrMonths : List String :=
  [("jan"), ("feb"), ("mar"), ("apr"), ("may"), ("jun"), ("jul"), ("aug"),
   ("sep"), ("oct"), ("nov"), ("dec")]

/-- Full month names, lowercased (`strptime` `%B`). -/
def fullMonths : List String :=
  [("january"), ("february"), ("march"), ("april"), ("may"), ("june"), ("july"),
   ("august"), ("september"), ("october"), ("november"), ("december")]

/-- One-based index of a string in a list (used to number months). -/
def idxOf1 : List String → String → Option Nat
  | [], _ => none
  | x :: xs, t => if x = t then some 1 else (idxOf1 xs t).map (fun n => n + 1)

/-- All characters are digits and the string is non-empty. -/
def allDigits (s : String) : Bool := s != ("") && s.data.all Char.isDigit

/-- `strptime` `%d`: one or two digits, value 1..31. -/
def parseDay2 (s : String) : Option Nat :=
  if allDigits s ∧ s.length ≤ 2 then
    (let n := strToNat s; if 1 ≤ n ∧ n ≤ 31 then some n else none)
  else none

/-- `strptime` `%m`: one or two digits, value 1..12. -/
def parseMonthNum (s : String) : Option Nat :=
  if allDigits s ∧ s.length ≤ 2 then
    (let n := strToNat s; if 1 ≤ n ∧ n ≤ 12 then some n else none)
  else none

/-- `strptime` `%Y`: exactly four digits. -/
def parseYear4 (s : String) : Option Nat :=
  if allDigits s ∧ s.length = 4 then some (strToNat s) else none

/-- `strptime` `%H`: one or two digits, value 0..23. -/
def parseHour (s : String) : Option Nat :=
  if allDigits s ∧ s.length ≤ 2 then
    (let n := strToNat s; if n ≤ 23 then some n else none)
  else none

/-- `strptime` `%M`: one or two digits, value 0..59. -/
def parseMin (s : String) : Option Nat :=
  if allDigits s ∧ s.length ≤ 2 then
    (let n := strToNat s; if n ≤ 59 then some n else none)
  else none

/-- Gregorian leap year test (used by `datetime`'s day-of-month validation). -/
def isLeap (y : Nat) : Bool := y % 4 == 0 && (y % 100 != 0 || y % 400 == 0)

/-- Days in a month (for `datetime`'s validation of the parsed day). -/
def daysInMonth (y m : Nat) : Nat :=
  if m = 2 then (if isLeap y then 29 else 28)
  else if m = 4 ∨ m = 6 ∨ m = 9 ∨ m = 11 then 30
  else 31

/-- `datetime.strptime(s, '%A %d %b %Y')` : al-Ahram's date format, e.g.
`Monday 5 Aug 2013`.  `%A` matches only full weekday names. -/
def parseAhramDate (s : String) : Option PDate :=
  match pySplitWs s with
  | [wd, dd, mo, yy] =>
    if fullWeekdays.contains (lowerStr wd) then
      match parseDay2 dd, idxOf1 abbrMonths (lowerStr mo), parseYear4 yy with
      | some dn, some mn, some yn =>
        if dn ≤ daysInMonth yn mn then some ⟨yn, mn, dn, 0, 0⟩ else none
      | _, _, _ => none
    else none
  | _ => none

/-- `datetime.strptime(s, '%B %d, %Y')` : Daily News Egypt's date format,
e.g. `August 5, 2013`. -/
def parseDneDate (s : String) : Option PDate :=
  match pySplitWs s with
  | [mo, dc, yy] =>
    match (dc.data).getLast? with
    | some ',' =>
      (match idxOf1 fullMonths (lowerStr mo), parseDay2 (ofChars dc.data.dropLast),
          parseYear4 yy with
       | some mn, some dn, some yn =>
         if dn ≤ daysInMonth yn mn then some ⟨yn, mn, dn, 0, 0⟩ else none
       | _, _, _ => none)
    | _ => none
  | _ => none

/-- `datetime.strptime(s, '%a, %d/%m/%Y - %H:%M')` : Egypt Independent's
date format, e.g. `Sun, 05/08/2013 - 14:30`. -/
def parseEgindDate (s : String) : Option PDate :=
  match pySplitWs s with
  | [wdc, dmy, dash, hm] =>
    match (wdc.data).getLast? with
    | some ',' =>
      if abbrWeekdays.contains (lowerStr (ofChars wdc.data.dropLast)) ∧ dash = ("-") then
        match pySplitOn dmy ("/"), pySplitOn hm (":") with
        | [dd, mm, yy], [hh, mi] =>
          (match parseDay2 dd, parseMonthNum mm, parseYear4 yy, parseHour hh, parseMin mi with
           | some dn, some mn, some yn, some hn, some mip =>
             if dn ≤ daysInMonth yn mn then some ⟨yn, mn, dn, hn, mip⟩ else none
           | _, _, _, _, _ => none)
        | _, _ => none
      else none
    | _ => none
  | _ => none

/-- The characters of the literal `and`. -/
def andChars : List Char := ['a', 'n', 'd']

/-- Scanner for `re.split(',|and|  ', s)` : cut at every leftmost match of
a comma, the literal `and`, or two consecutive spaces (alternatives tried
in pattern order at each position). -/
def splitCADAux : Nat → List Char → List Char → List String
  | 0, cs, acc => [ofChars (acc.reverse ++ cs)]
  | _ + 1, [], acc => [ofChars acc.reverse]
  | fuel + 1, c :: cs, acc =>
    if c = ',' then ofChars acc.reverse :: splitCADAux fuel cs []
    else if andChars.isPrefixOf (c :: cs) then
      ofChars acc.reverse :: splitCADAux fuel ((c :: cs).drop 3) []
    else if c = ' ' ∧ cs.head? = some ' ' then
      ofChars acc.reverse :: splitCADAux fuel ((c :: cs).drop 2) []
    else splitCADAux fuel cs (c :: acc)

/-- `re.split(',|and|  ', s)` (al-Ahram source/date blob splitting). -/
def splitCAD (s : String) : List String := splitCADAux (s.length + 1) s.data []

/-- Scanner for `re.split(',|and', s)` (DNE byline splitting). -/
def splitCAAux : Nat → List Char → List Char → List String
  | 0, cs, acc => [ofChars (acc.reverse ++ cs)]
  | _ + 1, [], acc => [ofChars acc.reverse]
  | fuel + 1, c :: cs, acc =>
    if c = ',' then ofChars acc.reverse :: splitCAAux fuel cs []
    else if andChars.isPrefixOf (c :: cs) then
      ofChars acc.reverse :: splitCAAux fuel ((c :: cs).drop 3) []
    else splitCAAux fuel cs (c :: acc)

/-- `re.split(',|and', s)`. -/
def splitCA (s : String) : List String := splitCAAux (s.length + 1) s.data []

/-- The wire-service token list of
`re.findall("(Reuters|AP|PA|ANP|AFP|DPA|ANSA|MENA)", ...)`. -/
def wireTokens : List String :=
  [("Reuters"), ("AP"), ("PA"), ("ANP"), ("AFP"), ("DPA"), ("ANSA"), ("MENA")]

/-- First wire token (in alternation order) matching at this position. -/
def firstWireAux : List String → List Char → Option (String × Nat)
  | [], _ => none
  | w :: ws, cs => if w.data.isPrefixOf cs then some (w, w.length) else firstWireAux ws cs

/-- Left-to-right non-overlapping scan of `re.findall` for the wire tokens. -/
def wireAux : Nat → List Char → List String
  | 0, _ => []
  | _ + 1, [] => []
  | fuel + 1, c :: cs =>
    match firstWireAux wireTokens (c :: cs) with
    | some (w, n) => w :: wireAux fuel ((c :: cs).drop n)
    | none => wireAux fuel cs

/-- `re.findall("(Reuters|AP|PA|ANP|AFP|DPA|ANSA|MENA)", s)`. -/
def wireFindall (s : String) : List String := wireAux s.data.length s.data

/-- Helper for the al-Ahram `itertools.groupby` split: the maximal runs of
consecutive elements different from the marker (groupby on `x == marker`,
keeping the non-marker groups). -/
def runsAux (marker : String) : List String → List String → List (List String)
  | [], acc => if acc.isEmpty then [] else [acc.reverse]
  | x :: xs, acc =>
    if x = marker then
      (if acc.isEmpty then runsAux marker xs [] else acc.reverse :: runsAux marker xs [])
    else runsAux marker xs (x :: acc)

/-- Split a block list on elements equal to the marker (`groupby` idiom of
the script at the `Short link: ` divider). -/
def splitRuns (marker : String) (l : List String) : List (List String) := runsAux marker l []

/-- Model of the translation table `{'\n': None, '\t': None, '\xa0': ' '}`
applied by `str.translate` to each al-Ahram content block. -/
def transAhL : List Char → List Char
  | [] => []
  | c :: cs =>
    if c = '\n' then transAhL cs
    else if c = '\t' then transAhL cs
    else if c = '\xa0' then ' ' :: transAhL cs
    else c :: transAhL cs

/-- `str.translate` removing newlines and tabs, mapping NBSP to a space. -/
def transAh (s : String) : String := ofChars (transAhL s.data)

/-- `re.sub('(\(|\))', ' ', s)` : replace parentheses with spaces. -/
def replaceParens (s : String) : String :=
  ofChars (s.data.map (fun c => if c = '(' then ' ' else if c = ')' then ' ' else c))

/-- Model of `re.search("value=\"(.+)\"", s).group(1)` : everything after
the first `value="` up to the last following double quote (the capture is
greedy); `none` when the pattern does not match (Python then raises
`AttributeError` on `.group`). -/
def reSearchValue (s : String) : Option String :=
  match pySplitOn s ("value=\x22") with
  | _ :: r1 :: rs =>
    (let tail := joinWith ("value=\x22") (r1 :: rs)
     let segs := pySplitOn tail ("\x22")
     match segs.dropLast with
     | [] => none
     | c :: cap =>
       (let capture := joinWith ("\x22") (c :: cap)
        if capture = ("") then none else some capture))
  | _ => none

/-- The normalized in-memory article record built by the extractors
(the attributes of the Python `Article` object). -/
structure ArticleRec where
  title : String
  subtitle : Option String
  date : PDate
  authors : List String
  sources : List String
  content : String
  content_no_tags : String
  content_no_punc : String
  word_count : Nat
  url : String
  type : String
  tags : List String
  translated : Bool
deriving DecidableEq, Repr

/-- Parsed-document abstraction: for every BeautifulSoup lookup the script
performs, the corresponding selector results.  A selector returning
elements is given as a list of results, each result as the list of raw
HTML strings of its `.contents` (or directly as its string value where
the script reads `.string`).  Fields default to empty/absent. -/
structure RawDoc where
  /-- egind `.pane-node-title div` results, each as its `.contents` strings. -/
  egTitle : List (List String) := []
  /-- egind `.field-field-source .field-items a` results, each as its `.string`. -/
  egSource : List String := []
  /-- egind `.field-field-author .field-items a` results, each as its `.string`. -/
  egAuthor : List String := []
  /-- egind `.field-field-published-date span` results, each as its `.string`. -/
  egDate : List String := []
  /-- egind `.view-free-tags .field-content a` results, each as its `.string`. -/
  egTags : List String := []
  /-- egind `.pane-node-body div` results, each as its `.contents` strings. -/
  egContent : List (List String) := []
  /-- egind `meta[property=og:url]` content attribute (`none` = tag absent,
  which makes the subscript raise `TypeError`). -/
  egUrl : Option String := none
  /-- ahram `#ContentPlaceHolder1_hd` results (after comment removal). -/
  ahTitle : List (List String) := []
  /-- ahram `#ContentPlaceHolder1_bref` results. -/
  ahSubtitle : List (List String) := []
  /-- ahram `#ContentPlaceHolder1_source` results. -/
  ahSourceDate : List (List String) := []
  /-- ahram `soup.title.string` (the page title). -/
  ahPageTitle : String := ""
  /-- ahram `#ContentPlaceHolder1_divContent` results, each as its `.contents`. -/
  ahContent : List (List String) := []
  /-- dne `h2.posttitle` results (after the `<h1 ...>` → `<h2 ...>` repair). -/
  dnTitle : List (List String) := []
  /-- dne `#postExcerpt` results. -/
  dnExcerpt : List (List String) := []
  /-- dne `.metaStuff time` results, each as its `.string`. -/
  dnDate : List String := []
  /-- dne `#crumbs` results, each as its `.contents` strings. -/
  dnCrumbs : List (List String) := []
  /-- dne `div.entry` results, each as its `.contents` strings. -/
  dnEntry : List (List String) := []
  /-- dne `soup.find('span', itemprop=author)`: outer `none` = span absent
  (then `.find('a')` raises `AttributeError`); inner value = the result of
  `.find('a')` inside it, as that anchor's `.contents` strings. -/
  dnSpanAuthor : Option (Option (List String)) := none
  /-- dne `#authorBio .author-data h4 a` results, each as its `.contents`. -/
  dnBio : List (List String) := []
  /-- dne `meta[property=og:url]` content attribute. -/
  dnUrl : Option String := none
  /-- dne `ul#metaStuff li` results, each as its raw HTML string. -/
  dnTagsLi : List String := []
deriving DecidableEq

/-- Author/source disambiguation shared by ahram and dne: opinion articles
carry authors and no sources, news articles carry sources and no authors
(first component: sources, second: authors). -/
def splitByType (typ : String) (lst : List String) : List String × List String :=
  if typ = ("Opinion") then ([], lst) else (lst, [])

/-- Model of `Article._extract_fields_egind`.  Error points in source
order: title `[0]`, date `[0]`, `strptime`, content `[0]`, the `og:url`
meta subscript (`TypeError` when absent), and `content_clean[-1]` for the
translation check. -/
def extractFieldsEgind (d : RawDoc) : Except PyErr ArticleRec :=
  match sel0 d.egTitle with
  | Except.error e => Except.error e
  | Except.ok titleContents =>
    match sel0 d.egDate with
    | Except.error e => Except.error e
    | Except.ok dateRaw =>
      match optE PyErr.valueError (parseEgindDate (pyTrim dateRaw)) with
      | Except.error e => Except.error e
      | Except.ok dateObj =>
        match sel0 d.egContent with
        | Except.error e => Except.error e
        | Except.ok contentContents =>
          let contentClean := contentContents.filter (fun l => l != ("\n"))
          let contentNoTags := joinNl (contentClean.map stripAllTags)
          let contentNoPunc := puncSub contentNoTags
          match optE PyErr.typeError d.egUrl with
          | Except.error e => Except.error e
          | Except.ok url =>
            match selLast contentClean with
            | Except.error e => Except.error e
            | Except.ok lastBlock =>
              Except.ok
                { title := joinSp (titleContents.map pyTrim)
                  subtitle := none
                  date := dateObj
                  sources := d.egSource.map pyTrim
                  authors := d.egAuthor.map pyTrim
                  content := joinNl contentClean
                  content_no_tags := contentNoTags
                  content_no_punc := contentNoPunc
                  word_count := (pySplitWs contentNoPunc).length
                  url := url
                  type := if containsSub url ("/opinion/") then ("Opinion") else ("News")
                  tags := d.egTags.map (fun t => lowerStr (pyTrim t))
                  translated := containsSub lastBlock ("translat") }

/-- Model of `Article._extract_fields_ahram`.  The HTML-comment removal is
assumed already applied to the `RawDoc` selector results.  Error points in
source order: title `[0]`, subtitle `[0]`, source blob `[0]`, the `pop()`
of the split, `strptime`, content `[0]`, `content_blob_split[0]`,
`content_blob_split[1]`, and the shortlink `re.search(...).group`
(`AttributeError` when the pattern misses). -/
def extractFieldsAhram (d : RawDoc) : Except PyErr ArticleRec :=
  match sel0 d.ahTitle with
  | Except.error e => Except.error e
  | Except.ok t =>
    match sel0 d.ahSubtitle with
    | Except.error e => Except.error e
    | Except.ok sub =>
      match sel0 d.ahSourceDate with
      | Except.error e => Except.error e
      | Except.ok sd =>
        let parts := splitCAD (replaceParens (joinSp (sd.map pyTrim)))
        match selLast parts with
        | Except.error e => Except.error e
        | Except.ok dateRaw =>
          match optE PyErr.valueError (parseAhramDate (pyTrim dateRaw)) with
          | Except.error e => Except.error e
          | Except.ok dateObj =>
            let typ := if containsSub d.ahPageTitle ("Opinion -") then ("Opinion") else ("News")
            let srcClean := ((parts.dropLast).filter (fun s => s != (""))).map pyTrim
            let sa := splitByType typ srcClean
            match sel0 d.ahContent with
            | Except.error e => Except.error e
            | Except.ok cb =>
              let contentBlob := (cb.filter (fun l => l != ("\n"))).map transAh
              let blobSplit := splitRuns ("Short link: ") contentBlob
              match sel0 blobSplit with
              | Except.error e => Except.error e
              | Except.ok contentRaw0 =>
                let tagsRaw := contentRaw0.filter (fun b => containsSub b ("search_word"))
                let contentRaw := contentRaw0.filter (fun b => !(containsSub b ("search_word")))
                let contentClean := (contentRaw.map stripExtraTags).filter (fun s => s != (""))
                let contentNoTags := joinNl (contentClean.map stripAllTags)
                let contentNoPunc := puncSub contentNoTags
                let tags := match tagsRaw with
                  | [] => []
                  | t0 :: _ =>
                    ((pySplitOn (replaceAllStr (stripAllTags t0) ("Search Keywords: ") (""))
                        ("|")).map (fun tg => lowerStr (pyTrim tg)))
                match sel1 blobSplit with
                | Except.error e => Except.error e
                | Except.ok urlPart =>
                  match optE PyErr.attributeError (reSearchValue (String.join urlPart)) with
                  | Except.error e => Except.error e
                  | Except.ok shortlink =>
                    Except.ok
                      { title := stripAllTags (joinSp (t.map pyTrim))
                        subtitle :=
                          (let sc := stripAllTags (joinSp (sub.map pyTrim))
                           if sc != ("") then some sc else none)
                        date := dateObj
                        sources := sa.1
                        authors := sa.2
                        content := joinNl contentClean
                        content_no_tags := contentNoTags
                        content_no_punc := contentNoPunc
                        word_count := (pySplitWs contentNoPunc).length
                        url :=
                          if containsSub shortlink ("http") then shortlink
                          else ("http://english.ahram.org.eg/News/") ++ digitsOf shortlink
                            ++ (".aspx")
                        type := typ
                        tags := tags
                        translated := false }

/-- Model of `Article._extract_fields_dne`.  The `<h1 class="posttitle">`
→ `<h2 ...>` repair is assumed already applied to the selector results.
Note two places where the source indexes the *string*
`content_clean` (it became a string at the `"\n".join` line): the
tag-free content is built from its individual characters, and the byline
check reads its first character.  Error points in source order: title
`[0]`, excerpt `[0]`, date `[0]`, `strptime`, crumbs `[0]`, entry `[0]`,
the byline span lookup (`AttributeError` when the span is absent), the
anchor `contents[0]`, `content_clean[0]` on an empty string, and the
`og:url` subscript. -/
def extractFieldsDne (d : RawDoc) : Except PyErr ArticleRec :=
  match sel0 d.dnTitle with
  | Except.error e => Except.error e
  | Except.ok t =>
    match sel0 d.dnExcerpt with
    | Except.error e => Except.error e
    | Except.ok ex =>
      match sel0 d.dnDate with
      | Except.error e => Except.error e
      | Except.ok dateRaw =>
        match optE PyErr.valueError (parseDneDate (pyTrim dateRaw)) with
        | Except.error e => Except.error e
        | Except.ok dateObj =>
          match sel0 d.dnCrumbs with
          | Except.error e => Except.error e
          | Except.ok cr =>
            let typ :=
              if containsSub (stripAllTags (joinSp (cr.map pyTrim))) ("Opinion")
              then ("Opinion") else ("News")
            match sel0 d.dnEntry with
            | Except.error e => Except.error e
            | Except.ok entry =>
              let cc1 := (entry.map (fun ch => pyTrim (stripAgain ch))).filter (fun s => s != (""))
              let ccStr := hd0 (pySplitOn (joinNl cc1) ("<p>Related posts:"))
              let cdata := pySplitOn ccStr ("//]]&gt;")
              let content :=
                match cdata with
                | _ :: snd :: _ => snd
                | _ => ccStr
              let contentNoTags := joinNl (ccStr.data.map (fun c => stripAllTags (ofChars [c])))
              let contentNoPunc := puncSub contentNoTags
              match d.dnSpanAuthor with
              | none => Except.error PyErr.attributeError
              | some bylineA =>
                match
                  (match bylineA with
                   | some anchorContents =>
                     (match anchorContents with
                      | [] => Except.error PyErr.indexError
                      | c0 :: _ => Except.ok [c0])
                   | none =>
                     (match d.dnBio with
                      | b0 :: _ => Except.ok b0
                      | [] => Except.ok ([] : List String))) with
                | Except.error e => Except.error e
                | Except.ok sourceClean =>
                  match
                    (match ccStr.data with
                     | [] => Except.error PyErr.indexError
                     | c :: _ => Except.ok (stripAllTags (ofChars [c]))) with
                  | Except.error e => Except.error e
                  | Except.ok firstline =>
                    let additional :=
                      if startsWithStr firstline ("By ") || startsWithStr firstline ("By\xa0")
                      then
                        ((splitCA (pyTrim (replaceAllStr firstline ("By") ("")))).filter
                          (fun s => (pySplitWs s).length < 6)).map pyTrim
                      else []
                    let combined := sourceClean ++ additional ++ wireFindall firstline
                    let finalSources :=
                      if combined.length > 0 then combined else [("Daily News Egypt")]
                    let sa := splitByType typ finalSources
                    match optE PyErr.typeError d.dnUrl with
                    | Except.error e => Except.error e
                    | Except.ok url =>
                      let tagsJoined :=
                        String.join
                          ((d.dnTagsLi.filter (fun li => containsSub li ("Tagged With:"))).map
                            pyTrim)
                      let tags :=
                        ((pySplitOn
                            (replaceAllStr (stripAllTags tagsJoined) ("Tagged With:") (""))
                            (",")).map (fun tg => lowerStr (pyTrim tg)))
                      Except.ok
                        { title := stripAllTags (joinSp (t.map pyTrim))
                          subtitle :=
                            (let sc := stripAllTags (joinSp (ex.map pyTrim))
                             if sc != ("") then some sc else none)
                          date := dateObj
                          sources := sa.1
                          authors := sa.2
                          content := content
                          content_no_tags := contentNoTags
                          content_no_punc := contentNoPunc
                          word_count := (pySplitWs contentNoPunc).length
                          url := url
                          type := typ
                          tags := tags
                          translated := false }

/-- Model of `Article.__init__`: dispatch on the configured publication
identifier; any other identifier raises a plain `Exception`. -/
def extractArticle (pub : String) (d : RawDoc) : Except PyErr ArticleRec :=
  if pub = ("egind") then extractFieldsEgind d
  else if pub = ("ahram") then extractFieldsAhram d
  else if pub = ("dne") then extractFieldsDne d
  else Except.error PyErr.exception

/-- A row of the `articles` table (scalar fields plus generated id). -/
structure ArticleRow where
  id : Nat
  title : String
  subtitle : Option String
  date : PDate
  url : String
  type : String
  content : String
  content_no_tags : String
  content_no_punc : String
  word_count : Nat
  translated : Bool
deriving DecidableEq, Repr

/-- The relational store: the articles table, three name-keyed dimension
tables (id, name) and three junction tables (article id, dimension id). -/
structure DB where
  articles : List ArticleRow
  authors : List (Nat × String)
  sources : List (Nat × String)
  tags : List (Nat × String)
  artAuthors : List (Nat × Nat)
  artSources : List (Nat × Nat)
  artTags : List (Nat × Nat)
deriving DecidableEq, Repr

/-- The empty store. -/
def emptyDB : DB :=
  { articles := [], authors := [], sources := [], tags := [],
    artAuthors := [], artSources := [], artTags := [] }

/-- A fresh generated id for a dimension table. -/
def freshDimId (rows : List (Nat × String)) : Nat :=
  (rows.map (fun r => r.1)).foldr Nat.max 0 + 1

/-- Whether a dimension table already holds a row with this name. -/
def hasName (rows : List (Nat × String)) (n : String) : Bool :=
  rows.any (fun r => r.2 == n)

/-- Modelled from the spec: `schema.sql` is referenced but absent from the
source tree; per spec §3/§6 the dimension tables are name-keyed (unique
name), so `INSERT OR IGNORE` keeps the table unchanged when the name is
present and otherwise appends a row with a fresh id. -/
def insertDim (rows : List (Nat × String)) (n : String) : List (Nat × String) :=
  if hasName rows n then rows else rows ++ [(freshDimId rows, n)]

/-- `executemany` of `INSERT OR IGNORE` over a name list. -/
def insertDims (rows : List (Nat × String)) (ns : List String) : List (Nat × String) :=
  ns.foldl insertDim rows

/-- `SELECT id FROM dim WHERE name IN (names)` in table order.  SQLite
accepts an empty `IN ()` list (it is simply false). -/
def selectDimIds (rows : List (Nat × String)) (ns : List String) : List Nat :=
  (rows.filter (fun r => ns.contains r.2)).map (fun r => r.1)

/-- Whether a junction table already holds this pair. -/
def hasPair (rows : List (Nat × Nat)) (p : Nat × Nat) : Bool :=
  rows.any (fun q => decide (q = p))

/-- Modelled from the spec: junction rows are unique per (article id,
dimension id) pair and idempotent under re-insertion (spec §3), so
`INSERT OR IGNORE` appends the pair only when absent. -/
def insertJunc (rows : List (Nat × Nat)) (p : Nat × Nat) : List (Nat × Nat) :=
  if hasPair rows p then rows else rows ++ [p]

/-- `executemany` of `INSERT OR IGNORE` over a pair list. -/
def insertJuncs (rows : List (Nat × Nat)) (ps : List (Nat × Nat)) : List (Nat × Nat) :=
  ps.foldl insertJunc rows

/-- Whether the articles table already holds a row with this URL. -/
def hasUrl (rows : List ArticleRow) (u : String) : Bool :=
  rows.any (fun r => r.url == u)

/-- A fresh generated id for the articles table. -/
def freshArticleId (rows : List ArticleRow) : Nat :=
  (rows.map (fun r => r.id)).foldr Nat.max 0 + 1

/-- The article row built from an extracted record. -/
def rowOfRec (rows : List ArticleRow) (a : ArticleRec) : ArticleRow :=
  { id := freshArticleId rows, title := a.title, subtitle := a.subtitle, date := a.date,
    url := a.url, type := a.type, content := a.content,
    content_no_tags := a.content_no_tags, content_no_punc := a.content_no_punc,
    word_count := a.word_count, translated := a.translated }

/-- Modelled from the spec: the article URL is the unique natural key
(spec §3, `schema.sql` absent), so `INSERT OR IGNORE INTO articles` is a
no-op when a row with the same URL exists. -/
def insertArticleRow (rows : List ArticleRow) (a : ArticleRec) : List ArticleRow :=
  if hasUrl rows a.url then rows else rows ++ [rowOfRec rows a]

/-- The dimension and junction inserts of `Article.write_to_db` performed
after the article id has been resolved (steps: insert-or-ignore each
author/source/tag name, look the ids up by name, then insert-or-ignore
one junction pair per id). -/
def writeRest (a : ArticleRec) (db : DB) (articleId : Nat) : DB :=
  { articles := insertArticleRow db.articles a
    authors := insertDims db.authors a.authors
    sources := insertDims db.sources a.sources
    tags := insertDims db.tags a.tags
    artSources :=
      insertJuncs db.artSources
        ((selectDimIds (insertDims db.sources a.sources) a.sources).map
          (fun i => (articleId, i)))
    artAuthors :=
      insertJuncs db.artAuthors
        ((selectDimIds (insertDims db.authors a.authors) a.authors).map
          (fun i => (articleId, i)))
    artTags :=
      insertJuncs db.artTags
        ((selectDimIds (insertDims db.tags a.tags) a.tags).map
          (fun i => (articleId, i))) }

/-- Model of `Article.write_to_db`: insert-or-ignore the article row, look
its id up by URL (`fetchall()[0][0]` raises `IndexError` when the lookup
is empty), then perform the dimension and junction inserts. -/
def writeToDb (a : ArticleRec) (db : DB) : Except PyErr DB :=
  match (insertArticleRow db.articles a).filter (fun r => r.url == a.url) with
  | [] => Except.error PyErr.indexError
  | r :: _ => Except.ok (writeRest a db r.id)

/-- State of one run: the open store plus the quarantine folder
(`broken_files`), as the list of moved documents. -/
structure RunState where
  db : DB
  broken : List RawDoc
deriving DecidableEq

/-- Model of the script's main loop: for each file, build the `Article`
and write it; `except IndexError` moves the file to the quarantine
location and continues; any other exception propagates, aborting the
run.  (The caught-write branch is unreachable: `writeToDb` always
succeeds, see `writeToDb_ok`.) -/
def runAll (pub : String) : List RawDoc → RunState → Except PyErr RunState
  | [], st => Except.ok st
  | d :: rest, st =>
    match extractArticle pub d with
    | Except.error PyErr.indexError => runAll pub rest ⟨st.db, st.broken ++ [d]⟩
    | Except.error e => Except.error e
    | Except.ok art =>
      match writeToDb art st.db with
      | Except.error PyErr.indexError => runAll pub rest ⟨st.db, st.broken ++ [d]⟩
      | Except.error e => Except.error e
      | Except.ok db2 => runAll pub rest ⟨db2, st.broken⟩

/-- Placeholder article used only as the default of `Option.getD` when
naming an extractor's successful result. -/
def arbArticle : ArticleRec :=
  { title := "", subtitle := none, date := ⟨0, 0, 0, 0, 0⟩, authors := [], sources := [],
    content := "", content_no_tags := "", content_no_punc := "", word_count := 0,
    url := "", type := "", tags := [], translated := false }

/-- A dne Opinion document whose first (and only) content paragraph is the
text `By Jane Doe, John Smith and wire reports`; the byline span exists
but holds no anchor, and there is no author-bio block. -/
def docC1 : RawDoc :=
  { dnTitle := [[("Opinion piece title")]]
    dnExcerpt := [[("Sub")]]
    dnDate := [("August 5, 2013")]
    dnCrumbs := [[("Home Opinion")]]
    dnEntry := [[("By Jane Doe, John Smith and wire reports")]]
    dnSpanAuthor := some none
    dnUrl := some ("http://www.dailynewsegypt.com/x") }

/-- The article the dne extractor produces for `docC1`. -/
def artC1 : ArticleRec := ((extractArticle ("dne") docC1).toOption).getD arbArticle

/-- A dne document whose single content block is the plain text
`Hello world` (no markup at all). -/
def docC2 : RawDoc :=
  { dnTitle := [[("News title")]]
    dnExcerpt := [[("S2")]]
    dnDate := [("August 6, 2013")]
    dnCrumbs := [[("Home News")]]
    dnEntry := [[("Hello world")]]
    dnSpanAuthor := some (some [("Staff Writer")])
    dnUrl := some ("http://www.dailynewsegypt.com/y") }

/-- The article the dne extractor produces for `docC2`. -/
def artC2 : ArticleRec := ((extractArticle ("dne") docC2).toOption).getD arbArticle

/-- A fully populated article used to exercise the persistence adapter. -/
def wArticle : ArticleRec :=
  { title := ("Two cities")
    subtitle := none
    date := ⟨2013, 8, 5, 0, 0⟩
    authors := [("Jane Doe")]
    sources := []
    content := ("<p>Alpha</p>")
    content_no_tags := ("Alpha")
    content_no_punc := ("alpha")
    word_count := 1
    url := ("http://example.org/a")
    type := ("Opinion")
    tags := [("politics"), ("egypt")]
    translated := false }

/-- The store obtained by persisting `wArticle` into the empty store. -/
def wDb1 : DB := ((writeToDb wArticle emptyDB).toOption).getD emptyDB

/-- A document on which every selector is empty: the egind title lookup
`title_raw[0]` raises `IndexError` immediately. -/
def docW4 : RawDoc := {}

/-- An egind document carrying both a source link and an author link. -/
def docC5 : RawDoc :=
  { egTitle := [[("Egind title")]]
    egSource := [("Reuters")]
    egAuthor := [("Jane Doe")]
    egDate := [("Sun, 05/08/2013 - 14:30")]
    egContent := [[("<p>Text here</p>")]]
    egUrl := some ("http://www.egyptindependent.com/news/x") }

/-- The article the egind extractor produces for `docC5`. -/
def artC5 : ArticleRec := ((extractArticle ("egind") docC5).toOption).getD arbArticle

/-- A plain dne Opinion document used to witness the amended exclusivity
claim. -/
def docW5 : RawDoc :=
  { dnTitle := [[("W5 title")]]
    dnExcerpt := [[("E")]]
    dnDate := [("August 7, 2013")]
    dnCrumbs := [[("Home Opinion")]]
    dnEntry := [[("Body text here")]]
    dnSpanAuthor := some (some [("Ann Writer")])
    dnUrl := some ("http://www.dailynewsegypt.com/w5") }

/-- The article the dne extractor produces for `docW5`. -/
def artW5 : ArticleRec := ((extractArticle ("dne") docW5).toOption).getD arbArticle

/-- An ahram News document whose source-and-date blob carries the source
text `Reuters and Ahram Online (Jadaliyya)` and ends with the full
weekday date text `Monday 5 Aug 2013`. -/
def docC6g : RawDoc :=
  { ahTitle := [[("Ahram news title")]]
    ahSubtitle := [[("Brief here")]]
    ahSourceDate := [[("Reuters and Ahram Online (Jadaliyya), Monday 5 Aug 2013")]]
    ahPageTitle := ("Egypt - Politics - Ahram Online")
    ahContent := [[("<p>Body text</p>"), ("Short link: "),
      ("<input value=\x22http://english.ahram.org.eg/News/81423.aspx\x22>")]] }

/-- The article the ahram extractor produces for `docC6g`. -/
def artC6 : ArticleRec := ((extractArticle ("ahram") docC6g).toOption).getD arbArticle

/-- The same ahram document with the abbreviated date text
`Mon 5 Aug 2013` of the claimed scenario. -/
def docC6b : RawDoc :=
  { ahTitle := [[("Ahram news title")]]
    ahSubtitle := [[("Brief here")]]
    ahSourceDate := [[("Reuters and Ahram Online (Jadaliyya), Mon 5 Aug 2013")]]
    ahPageTitle := ("Egypt - Politics - Ahram Online")
    ahContent := [[("<p>Body text</p>"), ("Short link: "),
      ("<input value=\x22http://english.ahram.org.eg/News/81423.aspx\x22>")]] }

/-- An egind document used to witness the derived-field properties. -/
def docW7 : RawDoc :=
  { egTitle := [[("W7 title")]]
    egDate := [("Mon, 05/08/2013 - 08:00")]
    egContent := [[("<p>Alpha beta</p>")]]
    egUrl := some ("http://www.egyptindependent.com/news/w7") }

/-- The article the egind extractor produces for `docW7`. -/
def artW7 : ArticleRec := ((extractArticle ("egind") docW7).toOption).getD arbArticle

/-- An ahram document whose date text does not match `%A %d %b %Y`
(abbreviated weekday `Tue`). -/
def docC8 : RawDoc :=
  { ahTitle := [[("T8")]]
    ahSubtitle := [[("S8")]]
    ahSourceDate := [[("MENA, Tue 6 Aug 2013")]]
    ahPageTitle := ("Egypt - Politics - Ahram Online") }

/-- A document list entry for the unknown-publication run. -/
def docW9 : RawDoc := {}

/-- A dne document lacking the `<span itemprop="author">` element but
otherwise well-formed. -/
def docC10 : RawDoc :=
  { dnTitle := [[("T10")]]
    dnExcerpt := [[("Sub10")]]
    dnDate := [("August 8, 2013")]
    dnCrumbs := [[("Home News")]]
    dnEntry := [[("Cairo news body")]]
    dnSpanAuthor := none
    dnUrl := some ("http://www.dailynewsegypt.com/z") }

/-- The type-driven source/author split always leaves one side empty. -/
theorem splitByType_excl (t : String) (l : List String) :
    (splitByType t l).1 = [] ∨ (splitByType t l).2 = [] := by
  unfold splitByType
  split <;> simp

/-- The shared punctuation substitution leaves no punctuation-set
character in its output. -/
theorem puncSub_noPunc (s : String) : ∀ c ∈ (puncSub s).data, isPunc c = false := by
  intro c hc
  have hd : (puncSub s).data = (s.data.map Char.toLower).map puncRepl := rfl
  rw [hd] at hc
  rcases List.mem_map.mp hc with ⟨b, _, rfl⟩
  cases hb : isPunc b
  · simp [puncRepl, hb]
  · rw [show puncRepl b = ' ' from by simp [puncRepl, hb]]
    decide

/-- Every successful ahram extraction leaves sources or authors empty. -/
theorem ahramExcl (d : RawDoc) (a : ArticleRec) (h : extractFieldsAhram d = Except.ok a) :
    a.sources = [] ∨ a.authors = [] := by
  simp only [extractFieldsAhram] at h
  repeat' split at h
  all_goals try exact Except.noConfusion h
  all_goals (injection h with h2; subst h2; exact splitByType_excl _ _)

/-- Every successful dne extraction leaves sources or authors empty. -/
theorem dneExcl (d : RawDoc) (a : ArticleRec) (h : extractFieldsDne d = Except.ok a) :
    a.sources = [] ∨ a.authors = [] := by
  simp only [extractFieldsDne] at h
  repeat' split at h
  all_goals try exact Except.noConfusion h
  all_goals (injection h with h2; subst h2; exact splitByType_excl _ _)

/-- Derived-field properties of every successful egind extraction. -/
theorem egindDerived (d : RawDoc) (a : ArticleRec) (h : extractFieldsEgind d = Except.ok a) :
    a.word_count = (pySplitWs a.content_no_punc).length ∧
      ∀ c ∈ a.content_no_punc.data, isPunc c = false := by
  simp only [extractFieldsEgind] at h
  repeat' split at h
  all_goals try exact Except.noConfusion h
  all_goals (injection h with h2; subst h2; exact ⟨rfl, puncSub_noPunc _⟩)

/-- Derived-field properties of every successful ahram extraction. -/
theorem ahramDerived (d : RawDoc) (a : ArticleRec) (h : extractFieldsAhram d = Except.ok a) :
    a.word_count = (pySplitWs a.content_no_punc).length ∧
      ∀ c ∈ a.content_no_punc.data, isPunc c = false := by
  simp only [extractFieldsAhram] at h
  repeat' split at h
  all_goals try exact Except.noConfusion h
  all_goals (injection h with h2; subst h2; exact ⟨rfl, puncSub_noPunc _⟩)

/-- Derived-field properties of every successful dne extraction. -/
theorem dneDerived (d : RawDoc) (a : ArticleRec) (h : extractFieldsDne d = Except.ok a) :
    a.word_count = (pySplitWs a.content_no_punc).length ∧
      ∀ c ∈ a.content_no_punc.data, isPunc c = false := by
  simp only [extractFieldsDne] at h
  repeat' split at h
  all_goals try exact Except.noConfusion h
  all_goals (injection h with h2; subst h2; exact ⟨rfl, puncSub_noPunc _⟩)

/-- After an insert-or-ignore of a name, the name is present. -/
theorem hasName_insertDim_self (rows : List (Nat × String)) (n : String) :
    hasName (insertDim rows n) n = true := by
  unfold insertDim
  split
  · rename_i h; exact h
  · unfold hasName
    rw [List.any_append]
    simp

/-- Insert-or-ignore preserves the presence of any name. -/
theorem hasName_insertDim_mono (rows : List (Nat × String)) (n m : String)
    (h : hasName rows m = true) : hasName (insertDim rows n) m = true := by
  unfold insertDim
  split
  · exact h
  · unfold hasName at h ⊢
    rw [List.any_append]
    simp [h]

/-- Insert-or-ignore of a present name is a no-op. -/
theorem insertDim_of_hasName (rows : List (Nat × String)) (n : String)
    (h : hasName rows n = true) : insertDim rows n = rows := by
  unfold insertDim
  simp [h]

/-- A batch of dimension inserts preserves the presence of any name. -/
theorem hasName_insertDims_mono (ns : List String) : ∀ rows m, hasName rows m = true →
    hasName (insertDims rows ns) m = true := by
  induction ns with
  | nil => intro rows m h; exact h
  | cons n ns ih =>
    intro rows m h
    exact ih (insertDim rows n) m (hasName_insertDim_mono rows n m h)

/-- After a batch of dimension inserts, every inserted name is present. -/
theorem hasName_insertDims_of_mem (ns : List String) : ∀ rows n, n ∈ ns →
    hasName (insertDims rows ns) n = true := by
  induction ns with
  | nil => intro rows n h; cases h
  | cons m ns ih =>
    intro rows n h
    rcases List.mem_cons.mp h with h1 | h1
    · subst h1
      exact hasName_insertDims_mono ns (insertDim rows n) n (hasName_insertDim_self rows n)
    · exact ih (insertDim rows m) n h1

/-- A batch of dimension inserts over already-present names is a no-op. -/
theorem insertDims_eq_of_all (ns : List String) : ∀ rows,
    (∀ n ∈ ns, hasName rows n = true) → insertDims rows ns = rows := by
  induction ns with
  | nil => intro rows _; rfl
  | cons n ns ih =>
    intro rows h
    have h1 : insertDim rows n = rows :=
      insertDim_of_hasName rows n (h n (List.mem_cons_self n ns))
    calc insertDims rows (n :: ns) = insertDims (insertDim rows n) ns := rfl
    _ = insertDims rows ns := by rw [h1]
    _ = rows := ih rows (fun m hm => h m (List.mem_cons_of_mem n hm))

/-- Re-running a batch of dimension inserts changes nothing. -/
theorem insertDims_idem (rows : List (Nat × String)) (ns : List String) :
    insertDims (insertDims rows ns) ns = insertDims rows ns :=
  insertDims_eq_of_all ns (insertDims rows ns) (fun n hn => hasName_insertDims_of_mem ns rows n hn)

/-- After an insert-or-ignore of a junction pair, the pair is present. -/
theorem hasPair_insertJunc_self (rows : List (Nat × Nat)) (p : Nat × Nat) :
    hasPair (insertJunc rows p) p = true := by
  unfold insertJunc
  split
  · rename_i h; exact h
  · unfold hasPair
    rw [List.any_append]
    simp

/-- Junction insert-or-ignore preserves the presence of any pair. -/
theorem hasPair_insertJunc_mono (rows : List (Nat × Nat)) (p q : Nat × Nat)
    (h : hasPair rows q = true) : hasPair (insertJunc rows p) q = true := by
  unfold insertJunc
  split
  · exact h
  · unfold hasPair at h ⊢
    rw [List.any_append]
    simp [h]

/-- Junction insert-or-ignore of a present pair is a no-op. -/
theorem insertJunc_of_hasPair (rows : List (Nat × Nat)) (p : Nat × Nat)
    (h : hasPair rows p = true) : insertJunc rows p = rows := by
  unfold insertJunc
  simp [h]

/-- A batch of junction inserts preserves the presence of any pair. -/
theorem hasPair_insertJuncs_mono (ps : List (Nat × Nat)) : ∀ rows q, hasPair rows q = true →
    hasPair (insertJuncs rows ps) q = true := by
  induction ps with
  | nil => intro rows q h; exact h
  | cons p ps ih =>
    intro rows q h
    exact ih (insertJunc rows p) q (hasPair_insertJunc_mono rows p q h)

/-- After a batch of junction inserts, every inserted pair is present. -/
theorem hasPair_insertJuncs_of_mem (ps : List (Nat × Nat)) : ∀ rows p, p ∈ ps →
    hasPair (insertJuncs rows ps) p = true := by
  induction ps with
  | nil => intro rows p h; cases h
  | cons q ps ih =>
    intro rows p h
    rcases List.mem_cons.mp h with h1 | h1
    · subst h1
      exact hasPair_insertJuncs_mono ps (insertJunc rows p) p (hasPair_insertJunc_self rows p)
    · exact ih (insertJunc rows q) p h1

/-- A batch of junction inserts over already-present pairs is a no-op. -/
theorem insertJuncs_eq_of_all (ps : List (Nat × Nat)) : ∀ rows,
    (∀ p ∈ ps, hasPair rows p = true) → insertJuncs rows ps = rows := by
  induction ps with
  | nil => intro rows _; rfl
  | cons p ps ih =>
    intro rows h
    have h1 : insertJunc rows p = rows :=
      insertJunc_of_hasPair rows p (h p (List.mem_cons_self p ps))
    calc insertJuncs rows (p :: ps) = insertJuncs (insertJunc rows p) ps := rfl
    _ = insertJuncs rows ps := by rw [h1]
    _ = rows := ih rows (fun q hq => h q (List.mem_cons_of_mem p hq))

/-- Re-running a batch of junction inserts changes nothing. -/
theorem insertJuncs_idem (rows : List (Nat × Nat)) (ps : List (Nat × Nat)) :
    insertJuncs (insertJuncs rows ps) ps = insertJuncs rows ps :=
  insertJuncs_eq_of_all ps (insertJuncs rows ps) (fun p hp => hasPair_insertJuncs_of_mem ps rows p hp)

/-- After inserting an article row, its URL is present. -/
theorem hasUrl_insertArticleRow (rows : List ArticleRow) (a : ArticleRec) :
    hasUrl (insertArticleRow rows a) a.url = true := by
  unfold insertArticleRow
  split
  · rename_i h; exact h
  · unfold hasUrl
    rw [List.any_append]
    simp [rowOfRec]

/-- Inserting an article whose URL is present is a no-op. -/
theorem insertArticleRow_of_hasUrl (rows : List ArticleRow) (a : ArticleRec)
    (h : hasUrl rows a.url = true) : insertArticleRow rows a = rows := by
  unfold insertArticleRow
  simp [h]

/-- Re-inserting the same article row changes nothing. -/
theorem insertArticleRow_idem (rows : List ArticleRow) (a : ArticleRec) :
    insertArticleRow (insertArticleRow rows a) a = insertArticleRow rows a :=
  insertArticleRow_of_hasUrl (insertArticleRow rows a) a (hasUrl_insertArticleRow rows a)

/-- The article-id lookup of `write_to_db` always succeeds: after the
insert-or-ignore, a row with the article's URL exists, so the persistence
step never raises. -/
theorem writeToDb_ok (a : ArticleRec) (db : DB) : ∃ db2, writeToDb a db = Except.ok db2 := by
  unfold writeToDb
  split
  · rename_i hf
    exfalso
    have h := hasUrl_insertArticleRow db.articles a
    unfold hasUrl at h
    rw [List.any_eq_true] at h
    rcases h with ⟨x, hx, hb⟩
    have hmem : x ∈ (insertArticleRow db.articles a).filter (fun r => r.url == a.url) :=
      List.mem_filter.mpr ⟨hx, hb⟩
    rw [hf] at hmem
    cases hmem
  · exact ⟨_, rfl⟩

/-- C1: the claim says the dne extractor appends names from a `By <name>`
pattern found at the start of the first content paragraph, so that the
scenario paragraph `By Jane Doe, John Smith and wire reports` yields
authors containing `Jane Doe` and `John Smith`.  In the code,
`content_clean` has become a *string* by the time the byline check runs,
so `content_clean[0]` is its first character: the check sees only `B`,
finds neither a byline nor a wire token, and falls back to the
`Daily News Egypt` placeholder. -/
theorem c1_dne_byline_divergence :
    extractArticle ("dne") docC1 = Except.ok artC1 ∧ artC1.type = ("Opinion") ∧
      artC1.sources = [] ∧ artC1.authors = [("Daily News Egypt")] ∧
      ¬ (("Jane Doe") ∈ artC1.authors) := by
  refine ⟨rfl, rfl, rfl, rfl, ?_⟩
  decide

/-- C2: the claim says `content_no_tags` equals the content with each
block de-tagged and blocks joined by newlines, identically in all three
extractors.  In the dne extractor `content_clean` is a *string* at the
derivation line, so the script iterates over its characters: a plain
`Hello world` block yields `H\ne\nl\nl\no\n\nw\no\nr\nl\nd` (and
word count 10), not the de-tagged block `Hello world` (word count 2). -/
theorem c2_dne_content_no_tags_divergence :
    extractArticle ("dne") docC2 = Except.ok artC2 ∧ artC2.content = ("Hello world") ∧
      stripAllTags artC2.content = ("Hello world") ∧
      artC2.content_no_tags = ("H\ne\nl\nl\no\n\nw\no\nr\nl\nd") ∧
      ¬ artC2.content_no_tags = stripAllTags artC2.content ∧ artC2.word_count = 10 := by
  refine ⟨rfl, rfl, rfl, rfl, ?_, rfl⟩
  decide

/-- C3: persisting the same fully populated article twice leaves the
store exactly as after persisting it once — no duplicate article row
(URL is the key), no duplicate dimension or junction rows — and the
second persistence returns without error. -/
theorem c3_persist_idempotent (a : ArticleRec) (db db2 : DB)
    (h : writeToDb a db = Except.ok db2) : writeToDb a db2 = Except.ok db2 := by
  unfold writeToDb at h
  split at h
  · exact Except.noConfusion h
  · rename_i r rest hf
    injection h with h2
    subst h2
    unfold writeToDb
    have e1 : insertArticleRow (writeRest a db r.id).articles a
        = insertArticleRow db.articles a := by
      show insertArticleRow (insertArticleRow db.articles a) a = insertArticleRow db.articles a
      exact insertArticleRow_idem db.articles a
    rw [e1, hf]
    show Except.ok (writeRest a (writeRest a db r.id) r.id) = Except.ok (writeRest a db r.id)
    congr 1
    unfold writeRest
    dsimp only
    simp only [insertArticleRow_idem, insertDims_idem, insertJuncs_idem]

/-- C3 witness: persisting `wArticle` twice into the empty store. -/
theorem c3_persist_idempotent_witness :
    writeToDb wArticle emptyDB = Except.ok wDb1 ∧ writeToDb wArticle wDb1 = Except.ok wDb1 :=
  ⟨rfl, c3_persist_idempotent wArticle emptyDB wDb1 rfl⟩

/-- C4: a document whose extractor raises `IndexError` is moved,
unmodified, to the quarantine list; the store is untouched for that
document and the loop continues with the remaining documents. -/
theorem c4_index_error_quarantined (pub : String) (d : RawDoc) (rest : List RawDoc)
    (st : RunState) (h : extractArticle pub d = Except.error PyErr.indexError) :
    runAll pub (d :: rest) st = runAll pub rest ⟨st.db, st.broken ++ [d]⟩ := by
  simp only [runAll, h]

/-- C4 witness: a document with an empty title selector under egind. -/
theorem c4_index_error_quarantined_witness :
    extractArticle ("egind") docW4 = Except.error PyErr.indexError ∧
      runAll ("egind") [docW4] ⟨emptyDB, []⟩ = runAll ("egind") [] ⟨emptyDB, [docW4]⟩ :=
  ⟨rfl, c4_index_error_quarantined ("egind") docW4 [] ⟨emptyDB, []⟩ rfl⟩

/-- C5 counterexample: the claim says authors and sources are never both
non-empty for any extracted article, but the egind extractor fills both
lists from independent selectors: a document carrying a source link and
an author link yields both non-empty. -/
theorem c5_counterexample_egind_both_nonempty :
    extractArticle ("egind") docC5 = Except.ok artC5 ∧
      artC5.authors = [("Jane Doe")] ∧ artC5.sources = [("Reuters")] ∧
      ¬ artC5.authors = [] ∧ ¬ artC5.sources = [] := by
  refine ⟨rfl, rfl, rfl, ?_, ?_⟩ <;> decide

/-- C5 amended: for the ahram and dne extractors the type rule makes
authors and sources mutually exclusive (Opinion articles get authors and
empty sources, News articles get sources and empty authors); the egind
extractor fills both lists from independent page selectors and does not
enforce exclusivity. -/
theorem c5_amended_ahram_dne_exclusive (pub : String) (d : RawDoc) (a : ArticleRec)
    (hp : pub = ("ahram") ∨ pub = ("dne"))
    (h : extractArticle pub d = Except.ok a) : a.sources = [] ∨ a.authors = [] := by
  rcases hp with rfl | rfl
  · unfold extractArticle at h
    rw [if_neg (by decide), if_pos rfl] at h
    exact ahramExcl d a h
  · unfold extractArticle at h
    rw [if_neg (by decide), if_neg (by decide), if_pos rfl] at h
    exact dneExcl d a h

/-- C5 amended witness: a dne Opinion document. -/
theorem c5_amended_ahram_dne_exclusive_witness :
    extractArticle ("dne") docW5 = Except.ok artW5 ∧ (artW5.sources = [] ∨ artW5.authors = []) :=
  ⟨rfl, c5_amended_ahram_dne_exclusive ("dne") docW5 artW5 (Or.inr rfl) rfl⟩

/-- C6 counterexample: the claimed scenario date text `Mon 5 Aug 2013`
does not match `%A %d %b %Y` (`%A` accepts only full weekday names), so
extraction raises `ValueError` instead of yielding the claimed record. -/
theorem c6_counterexample_abbreviated_weekday :
    extractArticle ("ahram") docC6b = Except.error PyErr.valueError ∧
      (extractArticle ("ahram") docC6b).toOption = none :=
  ⟨rfl, rfl⟩

/-- C6 amended: with the full weekday date text `Monday 5 Aug 2013` the
ahram scenario behaves as described: parentheses become spaces, the blob
is split on commas, the literal `and` and double-space runs, the final
token parses to 2013-08-05, and the remaining tokens become the sources
`Reuters`, `Ahram Online`, `Jadaliyya` with `authors = []`. -/
theorem c6_amended_full_weekday_scenario :
    extractArticle ("ahram") docC6g = Except.ok artC6 ∧ artC6.date = ⟨2013, 8, 5, 0, 0⟩ ∧
      artC6.sources = [("Reuters"), ("Ahram Online"), ("Jadaliyya")] ∧ artC6.authors = [] :=
  ⟨rfl, rfl, rfl, rfl⟩

/-- C7: for every successfully parsed article of every publication,
`word_count` equals the number of whitespace-delimited tokens of
`content_no_punc`, and `content_no_punc` contains no character of the
defined punctuation set. -/
theorem c7_word_count_no_punc (pub : String) (d : RawDoc) (a : ArticleRec)
    (h : extractArticle pub d = Except.ok a) :
    a.word_count = (pySplitWs a.content_no_punc).length ∧
      ∀ c ∈ a.content_no_punc.data, isPunc c = false := by
  unfold extractArticle at h
  split at h
  · exact egindDerived d a h
  · split at h
    · exact ahramDerived d a h
    · split at h
      · exact dneDerived d a h
      · exact Except.noConfusion h

/-- C7 witness: a concrete egind document. -/
theorem c7_word_count_no_punc_witness :
    extractArticle ("egind") docW7 = Except.ok artW7 ∧
      (artW7.word_count = (pySplitWs artW7.content_no_punc).length ∧
        ∀ c ∈ artW7.content_no_punc.data, isPunc c = false) :=
  ⟨rfl, c7_word_count_no_punc ("egind") docW7 artW7 rfl⟩

/-- C8 counterexample: the claim says a date-format failure is handled
like a structural absence (document quarantined, run continues), but the
loop catches only `IndexError`: on an ahram document with date text
`Tue 6 Aug 2013` the `ValueError` propagates and the run aborts instead
of quarantining the document. -/
theorem c8_counterexample_value_error_aborts :
    extractArticle ("ahram") docC8 = Except.error PyErr.valueError ∧
      runAll ("ahram") [docC8] ⟨emptyDB, []⟩ = Except.error PyErr.valueError ∧
      ¬ runAll ("ahram") [docC8] ⟨emptyDB, []⟩ = Except.ok ⟨emptyDB, [docC8]⟩ := by
  refine ⟨rfl, rfl, ?_⟩
  have e : runAll ("ahram") [docC8] ⟨emptyDB, []⟩ = Except.error PyErr.valueError := rfl
  rw [e]
  simp

/-- C8 amended: a date-format failure raises `ValueError`, which does
propagate out of the extractor, but the run loop catches only
`IndexError`, so the document is not quarantined and the whole run
aborts at that document. -/
theorem c8_amended_value_error_aborts (pub : String) (d : RawDoc) (rest : List RawDoc)
    (st : RunState) (h : extractArticle pub d = Except.error PyErr.valueError) :
    runAll pub (d :: rest) st = Except.error PyErr.valueError := by
  simp only [runAll, h]

/-- C8 amended witness: the ahram document with the malformed date. -/
theorem c8_amended_value_error_aborts_witness :
    extractArticle ("ahram") docC8 = Except.error PyErr.valueError ∧
      runAll ("ahram") [docC8] ⟨emptyDB, []⟩ = Except.error PyErr.valueError :=
  ⟨rfl, c8_amended_value_error_aborts ("ahram") docC8 [] ⟨emptyDB, []⟩ rfl⟩

/-- C9 counterexample: the claim says an unknown publication identifier
aborts the whole run at startup, before any document is processed; but
the identifier is only checked inside the per-document loop, so a run
over an empty input set completes without any error. -/
theorem c9_counterexample_empty_run_no_abort :
    (¬ ("zzz") = ("egind") ∧ ¬ ("zzz") = ("ahram") ∧ ¬ ("zzz") = ("dne")) ∧
      runAll ("zzz") [] ⟨emptyDB, []⟩ = Except.ok ⟨emptyDB, []⟩ := by
  exact ⟨⟨by decide, by decide, by decide⟩, rfl⟩

/-- C9 amended: with an unknown publication identifier and at least one
input document, the dispatch check in the article constructor raises a
plain `Exception` on the first document — before anything is parsed or
persisted — and, not being an `IndexError`, it aborts the whole run. -/
theorem c9_amended_unknown_pub_aborts_on_first_doc (pub : String) (d : RawDoc)
    (rest : List RawDoc) (st : RunState)
    (h1 : ¬ pub = ("egind")) (h2 : ¬ pub = ("ahram")) (h3 : ¬ pub = ("dne")) :
    runAll pub (d :: rest) st = Except.error PyErr.exception := by
  have he : extractArticle pub d = Except.error PyErr.exception := by
    unfold extractArticle
    rw [if_neg h1, if_neg h2, if_neg h3]
  simp only [runAll, he]

/-- C9 amended witness: a run with publication `foo` and one document. -/
theorem c9_amended_unknown_pub_witness :
    runAll ("foo") [docW9] ⟨emptyDB, []⟩ = Except.error PyErr.exception :=
  c9_amended_unknown_pub_aborts_on_first_doc ("foo") docW9 [] ⟨emptyDB, []⟩
    (by decide) (by decide) (by decide)

/-- C10: on a dne document lacking the `<span itemprop="author">`
element, the byline lookup calls `.find('a')` on `None` and raises
`AttributeError`, which the `IndexError`-only handler does not catch:
the run aborts and the remaining documents are not processed. -/
theorem c10_missing_author_span_aborts :
    docC10.dnSpanAuthor = none ∧
      extractArticle ("dne") docC10 = Except.error PyErr.attributeError ∧
      runAll ("dne") [docC10, docC10] ⟨emptyDB, []⟩ = Except.error PyErr.attributeError :=
  ⟨rfl, rfl, rfl⟩
